import Mathlib

/-!
# Verification of the Realtime-Digit-Classifier core against its specification

Shallow embedding of the algorithmic core of the repository:

* `src/SvmTrainer/SvmTrainer.cpp` — MNIST binary ingestion (`ReadInt`,
  `ReadMnistImageFile`, `LoadMnistLabelFile`);
* `src/lib/Svm.cpp` / `src/lib/Svm.h` — SVM wrapper (`Train`, `Test`,
  `Load`, `Save`);
* `src/lib/HogSvm.cpp` — HOG feature extraction and the image-level
  classifier (`ExtractFeatures`, `Train`, `Test`, `Predict`);
* `src/DigitClassifier/RealtimeDigitClassifier.cpp` — the per-frame
  detect-then-classify loop (`ProcessFrame`).

Machine bytes are modelled as `Nat` values `< 256`; pixel buffers as
row-major `List (List Nat)`; SVM decision values (C++ `float`) as `ℚ`,
which is faithful for every order comparison the code performs.
External library calls (OpenCV, `std::ifstream`, `std::filesystem`)
are modelled from their documented semantics, as noted at each site.
-/

namespace RDC

/-- A pixel image: a list of rows, each row a list of byte intensities. -/
abbrev Image := List (List Nat)

/-! ## Byte-stream model of `std::ifstream` in binary mode

A file that opened successfully is a byte list together with a read
position.  `std::ifstream::get(char&)` at end-of-stream extracts nothing,
sets `failbit` and leaves the `char` argument unchanged;
`std::ifstream::read(buf, n)` extracts the bytes that remain (possibly
fewer than `n`) and leaves the rest of the destination buffer untouched
(uninitialised memory for a fresh buffer).  Both behaviours are modelled
exactly: `get` returns the previous character on failure, and short
`read`s surface the missing bytes so callers can fill them from an
explicit uninitialised-memory environment. -/

structure ByteStream where
  data : List Nat
  pos : Nat
deriving Repr, DecidableEq

/-- Model of `file.get(ch)`: read one byte and advance, or fail leaving
`ch` (the previously held value) unchanged and the position where it is. -/
def ByteStream.get (s : ByteStream) (ch : Nat) : Nat × ByteStream :=
  match s.data.get? s.pos with
  | some b => (b, ⟨s.data, s.pos + 1⟩)
  | none => (ch, s)

/-- Model of `file.read(buf, n)`: extract up to `n` bytes; a short read
returns only what the stream still holds. -/
def ByteStream.readBytes (s : ByteStream) (n : Nat) : List Nat × ByteStream :=
  let avail := (s.data.drop s.pos).take n
  (avail, ⟨s.data, s.pos + avail.length⟩)

/-- Embedding of `ReadInt` (SvmTrainer.cpp:56-67): read a big-endian
4-byte integer.
`char ch = 0` starts at zero and keeps its previous value when a `get`
fails; each byte is masked with `0xFF` and or-ed into place.  The C++
`unsigned int` result is the returned `Nat` (always `< 2^32`). -/
def ReadInt (s : ByteStream) : Nat × ByteStream :=
  let (c1, s1) := s.get 0
  let (c2, s2) := s1.get c1
  let (c3, s3) := s2.get c2
  let (c4, s4) := s3.get c3
  ((c1 % 256) * 2 ^ 24 + (c2 % 256) * 2 ^ 16 + (c3 % 256) * 2 ^ 8 + c4 % 256, s4)

/-- OpenCV `threshold(src, dst, thresh, maxval, THRESH_BINARY)` applied to
one 8-bit pixel: `dst = maxval` if `src > thresh` else `0` (the comparison
is strict, per the OpenCV definition of `THRESH_BINARY`). -/
def cvThreshBinary (thresh maxval p : Nat) : Nat :=
  if thresh < p then maxval else 0

/-- Split a row-major pixel buffer into `rows` rows of `cols` pixels,
the layout of a `Mat(rows, cols, CV_8UC1)` data pointer. -/
def toRows (rows cols : Nat) (buf : List Nat) : Image :=
  (List.range rows).map fun r => (buf.drop (r * cols)).take cols

/-- The per-item loop of `ReadMnistImageFile` (SvmTrainer.cpp:103-113):
allocate an uninitialised `rows×cols` `Mat`, `file.read` its data (a
truncated file leaves the tail of the buffer as uninitialised memory,
modelled by the environment `uninit`), binarize with
`threshold(image, image, 90, 255, THRESH_BINARY)`, and collect in order. -/
def readMnistImagesLoop (uninit : Nat → Nat) (rows cols : Nat) :
    Nat → ByteStream → List Image
  | 0, _ => []
  | n + 1, s =>
    let (bytes, s') := s.readBytes (rows * cols)
    let buf := bytes ++ (List.range (rows * cols - bytes.length)).map uninit
    let img := (toRows rows cols buf).map (List.map (cvThreshBinary 90 255))
    img :: readMnistImagesLoop uninit rows cols n s'

/-- Embedding of `ReadMnistImageFile` (SvmTrainer.cpp:81-123).  The file argument is
`none` when the file cannot be opened (the only path on which the C++
function returns `false`); otherwise it is the file's byte content.  The
header is four big-endian integers (magic, item count, rows, columns),
followed by the images.  The function performs no length validation. -/
def ReadMnistImageFile (uninit : Nat → Nat) (file : Option (List Nat)) :
    Option (List Image) :=
  match file with
  | none => none
  | some data =>
    let s0 : ByteStream := ⟨data, 0⟩
    let (_magicNumber, s1) := ReadInt s0
    let (numItems, s2) := ReadInt s1
    let (numRows, s3) := ReadInt s2
    let (numColumns, s4) := ReadInt s3
    some (readMnistImagesLoop uninit numRows numColumns numItems s4)

/-- The per-label loop of `LoadMnistLabelFile` (SvmTrainer.cpp:158-161):
one `file.read` of a single byte per label row; at end-of-file the row
keeps its uninitialised value. -/
def readMnistLabelsLoop (uninit : Nat → Nat) :
    Nat → Nat → ByteStream → List Nat
  | _, 0, _ => []
  | i, n + 1, s =>
    let (bytes, s') := s.readBytes 1
    bytes.headD (uninit i) :: readMnistLabelsLoop uninit (i + 1) n s'

/-- Embedding of `LoadMnistLabelFile` (SvmTrainer.cpp:138-166): header of two
big-endian integers (magic, item count) followed by one byte per label.
No length validation is performed. -/
def LoadMnistLabelFile (uninit : Nat → Nat) (file : Option (List Nat)) :
    Option (List Nat) :=
  match file with
  | none => none
  | some data =>
    let s0 : ByteStream := ⟨data, 0⟩
    let (_magicNumber, s1) := ReadInt s0
    let (numItems, s2) := ReadInt s1
    some (readMnistLabelsLoop uninit 0 numItems s2)

/-! ## Region extraction and the per-frame loop
(`RealtimeDigitClassifier.cpp`, `ProcessFrame`, lines 33-102)

Contour discovery itself (`findContours` on the thresholded ROI) is
external vision code whose output the claims quantify over; the loop
body — crop the bounding rectangle, pad it, gate on the detector and
classify — is embedded below.  The translated bounding rectangles
(`boundingRect(contours[i]) + roi.tl()`) are the input list. -/

/-- An axis-aligned rectangle, as `cv::Rect` (origin, width, height). -/
structure CvRect where
  x : Nat
  y : Nat
  w : Nat
  h : Nat
deriving Repr, DecidableEq

/-- Crop of the bounding rectangle out of the processed frame
(RealtimeDigitClassifier.cpp:76): row-major sub-buffer of `r.h` rows of
`r.w` pixels starting at `(r.x, r.y)`. -/
def cropImage (frame : Image) (r : CvRect) : Image :=
  ((frame.drop r.y).take r.h).map fun row => (row.drop r.x).take r.w

/-- OpenCV `copyMakeBorder(img, img, vpad, vpad, hpad, hpad,
BORDER_CONSTANT, v)`: surround the buffer with a constant-valued border,
`vpad` rows above and below and `hpad` pixels left and right. -/
def padImage (img : Image) (vpad hpad v : Nat) : Image :=
  let w := (img.headD []).length
  let borderRow := List.replicate (w + 2 * hpad) v
  List.replicate vpad borderRow ++
    img.map (fun row => List.replicate hpad v ++ row ++ List.replicate hpad v) ++
    List.replicate vpad borderRow

/-- Padding amount for one dimension
(RealtimeDigitClassifier.cpp:80-81): `static_cast<int>(d * 0.2)`
truncates the IEEE-double product toward zero, which for every
frame-representable dimension equals `⌊d / 5⌋`. -/
def padAmount (d : Nat) : Nat := d / 5

/-- The region buffer handed to the classifiers
(RealtimeDigitClassifier.cpp:76-82): crop the bounding rectangle, then
pad it on each side with `20%` of that dimension in background (0)
pixels. -/
def extractRegionImage (frame : Image) (r : CvRect) : Image :=
  padImage (cropImage frame r) (padAmount r.h) (padAmount r.w) 0

/-- C++ `static_cast<int>` on a floating value: truncation toward zero. -/
def cppTruncToInt (q : ℚ) : Int :=
  if 0 ≤ q then ⌊q⌋ else ⌈q⌉

/-- The classification loop of `ProcessFrame`
(RealtimeDigitClassifier.cpp:69-101): for each bounding rectangle, build
the padded region image, ask the detector, and only when its prediction
is strictly positive invoke the digit classifier and emit the annotated
detection (bounding rectangle and truncated digit prediction).  The
detector and classifier (`HogSvm::Predict`) are `ℚ`-valued environments
on the region image. -/
def processFrameDetections (det cls : Image → ℚ) (frame : Image)
    (boundRects : List CvRect) : List (CvRect × Int) :=
  boundRects.filterMap fun r =>
    let image := extractRegionImage frame r
    if 0 < det image then some (r, cppTruncToInt (cls image)) else none

/-- Instrumentation of the same loop: the number of times the `detect >
0` branch is taken, i.e. the number of `classifier.Predict` calls made
while processing the frame. -/
def classifierCallCount (det : Image → ℚ) (frame : Image)
    (boundRects : List CvRect) : Nat :=
  (boundRects.filter fun r => 0 < det (extractRegionImage frame r)).length

/-! ## HOG feature extraction (`HogSvm.cpp`)

The `HogSvm` constructor fixes the `cv::HOGDescriptor` configuration;
`ExtractFeatures` resizes the input to the descriptor window and
computes the descriptor.  The rational parts of the computation
(resampling, gradients, histogram accumulation, concatenation) are
embedded concretely; the two irrational ingredients — the
`atan2`-based orientation binning of a gradient and the square root
inside the L2-Hys block norm — are environments (`vote`, `blockNorm`),
which no claim's property depends on. -/

/-- Configuration of a `cv::HOGDescriptor` (window, block, block stride,
cell, orientation bins). -/
structure HogConfig where
  winW : Nat
  winH : Nat
  blockW : Nat
  blockH : Nat
  strideX : Nat
  strideY : Nat
  cellW : Nat
  cellH : Nat
  nbins : Nat
deriving Repr, DecidableEq

/-- The configuration fixed by the `HogSvm` constructor
(HogSvm.cpp:19-23): window 28×28, block 4×4, block stride 2×2, cell 4×4,
9 orientation bins. -/
def hogSvmConfig : HogConfig := ⟨28, 28, 4, 4, 2, 2, 4, 4, 9⟩

/-- Number of horizontal block positions in the detection window. -/
def numBlocksX (c : HogConfig) : Nat := (c.winW - c.blockW) / c.strideX + 1

/-- Number of vertical block positions in the detection window. -/
def numBlocksY (c : HogConfig) : Nat := (c.winH - c.blockH) / c.strideY + 1

/-- OpenCV `HOGDescriptor::getDescriptorSize()`: orientation bins per
cell times cells per block times block positions per window. -/
def getDescriptorSize (c : HogConfig) : Nat :=
  c.nbins * (c.blockW / c.cellW) * (c.blockH / c.cellH) *
    numBlocksX c * numBlocksY c

/-- Pixel of an image buffer as a rational, 0 outside the buffer. -/
def pxAt (img : Image) (i j : Nat) : ℚ :=
  ((img.getD i []).getD j 0 : ℚ)

/-- Clamp an integer coordinate into `[0, n-1]`. -/
def clampIdx (n : Nat) (z : Int) : Nat :=
  (max 0 (min z ((n : Int) - 1))).toNat

/-- One destination pixel of OpenCV `resize` (INTER_LINEAR, the
default): sample the source at `(dst + 1/2) · scale − 1/2` with bilinear
weights and clamped neighbour coordinates, in ideal rational
arithmetic. -/
def resizePx (img : Image) (srcW srcH dstW dstH dx dy : Nat) : ℚ :=
  let sx : ℚ := ((dx : ℚ) + 1 / 2) * ((srcW : ℚ) / dstW) - 1 / 2
  let sy : ℚ := ((dy : ℚ) + 1 / 2) * ((srcH : ℚ) / dstH) - 1 / 2
  let x0 : Int := ⌊sx⌋
  let y0 : Int := ⌊sy⌋
  let fx : ℚ := sx - x0
  let fy : ℚ := sy - y0
  let p00 := pxAt img (clampIdx srcH y0) (clampIdx srcW x0)
  let p01 := pxAt img (clampIdx srcH y0) (clampIdx srcW (x0 + 1))
  let p10 := pxAt img (clampIdx srcH (y0 + 1)) (clampIdx srcW x0)
  let p11 := pxAt img (clampIdx srcH (y0 + 1)) (clampIdx srcW (x0 + 1))
  (1 - fy) * ((1 - fx) * p00 + fx * p01) + fy * ((1 - fx) * p10 + fx * p11)

/-- The window buffer `ExtractFeatures` computes the descriptor on
(HogSvm.cpp:135-137): the input image resized to the configured window
size, addressed as `window y x`. -/
def hogWindow (c : HogConfig) (img : Image) : Nat → Nat → ℚ := fun y x =>
  resizePx img (img.headD []).length img.length c.winW c.winH x y

/-- Horizontal central-difference gradient of the window (the `[-1,0,1]`
derivative mask of `HOGDescriptor::computeGradient`), border clamped. -/
def gradX (c : HogConfig) (w : Nat → Nat → ℚ) (y x : Nat) : ℚ :=
  w y (min (x + 1) (c.winW - 1)) - w y (x - 1)

/-- Vertical central-difference gradient of the window, border
clamped. -/
def gradY (c : HogConfig) (w : Nat → Nat → ℚ) (y x : Nat) : ℚ :=
  w (min (y + 1) (c.winH - 1)) x - w (y - 1) x

/-- Histogram of one block position: for each orientation bin, the sum
over the block's pixels of that pixel's vote for the bin.  The `vote`
environment abstracts the irrational per-pixel magnitude/orientation
computation (`atan2` plus interpolation) applied to the pixel's
gradient. -/
def blockHistogram (c : HogConfig) (vote : ℚ × ℚ → Nat → ℚ)
    (w : Nat → Nat → ℚ) (bx byy : Nat) : List ℚ :=
  (List.range c.nbins).map fun b =>
    ((List.range c.blockH).map fun i =>
      ((List.range c.blockW).map fun j =>
        vote (gradX c w (byy * c.strideY + i) (bx * c.strideX + j),
              gradY c w (byy * c.strideY + i) (bx * c.strideX + j)) b).sum).sum

/-- L2-Hys block normalisation: each entry is divided by a norm computed
from the whole block histogram (its square root is irrational, hence the
`blockNorm` environment). -/
def normalizeBlock (blockNorm : List ℚ → ℚ) (h : List ℚ) : List ℚ :=
  h.map fun v => v / blockNorm h

/-- OpenCV `HOGDescriptor::compute` on the resized window: the
normalised histograms of all block positions concatenated in a fixed
raster order. -/
def hogCompute (c : HogConfig) (vote : ℚ × ℚ → Nat → ℚ)
    (blockNorm : List ℚ → ℚ) (img : Image) : List ℚ :=
  ((List.range (numBlocksX c)).map fun bx =>
    ((List.range (numBlocksY c)).map fun byy =>
      normalizeBlock blockNorm
        (blockHistogram c vote (hogWindow c img) bx byy)).flatten).flatten

/-- A feature vector: one row of the feature matrix. -/
abbrev FeatureVec := List ℚ

/-- Embedding of `HogSvm::ExtractFeatures` for a single image
(HogSvm.cpp:130-155): resize to the window size, compute the HOG
descriptor, and yield it as one feature row. -/
def ExtractFeatures (vote : ℚ × ℚ → Nat → ℚ) (blockNorm : List ℚ → ℚ)
    (img : Image) : FeatureVec :=
  hogCompute hogSvmConfig vote blockNorm img

/-- Embedding of `HogSvm::ExtractFeatures` over a vector of images
(HogSvm.cpp:108-117): one feature row per image, in input order. -/
def ExtractFeaturesAll (vote : ℚ × ℚ → Nat → ℚ) (blockNorm : List ℚ → ℚ)
    (imgs : List Image) : List FeatureVec :=
  imgs.map (ExtractFeatures vote blockNorm)

/-! ## The SVM wrapper (`Svm.cpp`, `Svm.h`) -/

/-- Validation failure raised by OpenCV when training data is handed
over — the error the spec's taxonomy calls `TrainingError`. -/
inductive TrainingError where
  | emptyTrainData
  | labelCountMismatch
deriving Repr, DecidableEq

/-- Input validation of OpenCV
`cv::ml::SVM::train(samples, ROW_SAMPLE, responses)`, modelled from the
documented behaviour of `cv::ml::TrainData::setData`: a `cv::Exception`
is thrown when the sample matrix is empty or when the number of
responses differs from the number of samples; otherwise fitting
proceeds. -/
def cvSvmTrainValidate (nsamples nresponses : Nat) :
    Except TrainingError Unit :=
  if nsamples = 0 then .error .emptyTrainData
  else if nresponses ≠ nsamples then .error .labelCountMismatch
  else .ok ()

/-- Embedding of `Svm::Train` (Svm.cpp:67-78): convert the matrices,
call `m_svm->train`, and return `true`.  The wrapper performs no
validation of its own; its only failure mode is the exception
propagating out of the OpenCV call. -/
def SvmTrain (features : List FeatureVec) (labels : List Int) :
    Except TrainingError Bool :=
  (cvSvmTrainValidate features.length labels.length).map fun _ => true

/-- Embedding of `HogSvm::Train` (HogSvm.cpp:64-74): extract one feature
row per image, then train the underlying SVM on the feature matrix and
labels. -/
def HogSvmTrain (vote : ℚ × ℚ → Nat → ℚ) (blockNorm : List ℚ → ℚ)
    (imgs : List Image) (labels : List Int) : Except TrainingError Bool :=
  SvmTrain (ExtractFeaturesAll vote blockNorm imgs) labels

/-- The prediction-vs-label loop of `Svm::Test` (Svm.cpp:135-144):
count the rows where `static_cast<int>(m_svm->predict(row_i))` differs
from `labels(i)`.  When the feature rows outnumber the label rows the
source reads labels out of bounds (undefined behaviour); that case is
modelled as reading 0. -/
def testErrors (pred : FeatureVec → ℚ) :
    List FeatureVec → List Int → Nat
  | [], _ => 0
  | f :: fs, [] =>
    (if cppTruncToInt (pred f) ≠ 0 then 1 else 0) + testErrors pred fs []
  | f :: fs, l :: ls =>
    (if cppTruncToInt (pred f) ≠ l then 1 else 0) + testErrors pred fs ls

/-- IEEE float division as `Svm::Test` performs it: a finite rational
unless the divisor is zero, in which case the float result is non-finite
(NaN for the `0/0` an empty dataset produces), modelled as `none`. -/
def cvFloatDiv (a : ℚ) (n : Nat) : Option ℚ :=
  if n = 0 then none else some (a / n)

/-- Embedding of `Svm::Test` (Svm.cpp:127-156): the float
`(100.0f * errors) / labels.rows` where `errors` counts mispredicted
rows.  The model's decision function is the `pred` environment. -/
def SvmTest (pred : FeatureVec → ℚ) (features : List FeatureVec)
    (labels : List Int) : Option ℚ :=
  cvFloatDiv (100 * (testErrors pred features labels : ℚ)) labels.length

/-- Embedding of `HogSvm::Test` (HogSvm.cpp:87-95): extract features
from every image, then test the SVM on the feature matrix. -/
def HogSvmTest (vote : ℚ × ℚ → Nat → ℚ) (blockNorm : List ℚ → ℚ)
    (pred : FeatureVec → ℚ) (imgs : List Image) (labels : List Int) :
    Option ℚ :=
  SvmTest pred (ExtractFeaturesAll vote blockNorm imgs) labels

/-- The file-system view `Svm::Load`/`Svm::Save` interact with: which
paths exist. -/
structure FileSys where
  hasFile : String → Bool

/-- An opaque-to-the-wrapper handle for the `cv::Ptr<cv::ml::SVM>`
state `m_svm`. -/
structure SvmHandle where
  id : Nat
deriving Repr, DecidableEq

/-- Embedding of `Svm::Load` (Svm.cpp:168-179): return `false` without
touching `m_svm` when the file does not exist
(`std::experimental::filesystem::exists`); otherwise replace `m_svm`
with the deserialised model (`cv::ml::StatModel::load`, the `loadModel`
environment) and return `true`. -/
def SvmLoad (fs : FileSys) (loadModel : String → SvmHandle)
    (m_svm : SvmHandle) (filename : String) : Bool × SvmHandle :=
  if fs.hasFile filename = false then (false, m_svm)
  else (true, loadModel filename)

/-- Failure of the external `m_svm->save(filename)` call: the
`cv::Exception` OpenCV raises when `SVMImpl::write` finds no trained
parameters to serialise (the state a freshly constructed `Svm` holds),
or when `FileStorage` cannot create the destination. -/
inductive SaveError where
  | invalidModelState
  | unwritableDestination
deriving Repr, DecidableEq

/-- The external `m_svm->save(filename)` call
(`cv::ml::StatModel::save`), modelled from its documented behaviour:
it throws when the model holds no trained parameters (`SVMImpl::write`
raises `CV_StsParseError` for an invalid/untrained model) or when the
destination cannot be created (`FileStorage`); otherwise it writes the
serialised model.  Which handles count as trained and which
destinations as creatable are the `isTrained`/`canCreate`
environments; the write itself is the `writeModel` environment. -/
def cvSvmSave (isTrained : SvmHandle → Bool)
    (canCreate : FileSys → String → Bool)
    (writeModel : FileSys → String → SvmHandle → FileSys)
    (fs : FileSys) (filename : String) (m : SvmHandle) :
    Except SaveError FileSys :=
  if isTrained m = false then .error .invalidModelState
  else if canCreate fs filename = false then .error .unwritableDestination
  else .ok (writeModel fs filename m)

/-- Embedding of `Svm::Save` (Svm.cpp:191-202): an empty filename is
rejected (`return false`) before anything is written; otherwise
`m_svm->save(filename)` runs — if it completes the method returns
`true`, and if it throws the exception propagates out of `Save` (the
`.error` outcome).  `Save` is a `const` method, so the stored model
comes back unchanged on every non-throwing path. -/
def SvmSave (isTrained : SvmHandle → Bool)
    (canCreate : FileSys → String → Bool)
    (writeModel : FileSys → String → SvmHandle → FileSys)
    (fs : FileSys) (m_svm : SvmHandle) (filename : String) :
    Except SaveError (Bool × FileSys × SvmHandle) :=
  if filename = "" then .ok (false, fs, m_svm)
  else
    (cvSvmSave isTrained canCreate writeModel fs filename m_svm).map
      fun fs' => (true, fs', m_svm)

/-- Number of mispredicted (sample, label) pairs, written independently
of the `Svm::Test` loop as a filter over the zipped rows; the loop is
proved to compute this count. -/
def mismatchCount (pred : FeatureVec → ℚ) (features : List FeatureVec)
    (labels : List Int) : Nat :=
  ((features.zip labels).filter fun p => cppTruncToInt (pred p.1) ≠ p.2).length

/-! ## Concrete inputs used by witnesses and counterexamples -/

/-- A detector environment that predicts `-1` (non-digit) everywhere. -/
def c1Det : Image → ℚ := fun _ => -1

/-- An arbitrary digit-classifier environment. -/
def c1Cls : Image → ℚ := fun _ => 7

/-- A one-pixel frame. -/
def c1Frame : Image := [[255]]

/-- One candidate bounding rectangle on `c1Frame`. -/
def c1Rects : List CvRect := [⟨0, 0, 1, 1⟩]

/-- A 1×1 MNIST-format image file whose single pixel has intensity
`p`: magic 2051, one item, one row, one column. -/
def c2File (p : Nat) : List Nat :=
  [0, 0, 8, 3, 0, 0, 0, 1, 0, 0, 0, 1, 0, 0, 0, 1, p]

/-- The image file of the spec's concrete scenario: header
(magic 2051, N=3, R=2, C=2) followed by the 12 raw pixel bytes. -/
def mnistExampleFile : List Nat :=
  [0, 0, 8, 3, 0, 0, 0, 3, 0, 0, 0, 2, 0, 0, 0, 2,
   100, 10, 10, 100, 95, 95, 0, 0, 5, 5, 5, 5]

/-- An image file whose header declares one 2×2 image (20 bytes in
total) but whose actual length is 18 bytes: 2 of the 4 pixel bytes are
missing. -/
def shortImageFile : List Nat :=
  [0, 0, 8, 3, 0, 0, 0, 1, 0, 0, 0, 2, 0, 0, 0, 2, 100, 10]

/-- A 3×3 all-foreground frame whose full-frame bounding rectangle has
width and height 3. -/
def c4Frame : Image :=
  [[255, 255, 255], [255, 255, 255], [255, 255, 255]]

/-- A 7×7 all-foreground frame used to exercise a 5×5 interior
bounding rectangle. -/
def c4WitFrame : Image :=
  [[255, 255, 255, 255, 255, 255, 255], [255, 255, 255, 255, 255, 255, 255],
   [255, 255, 255, 255, 255, 255, 255], [255, 255, 255, 255, 255, 255, 255],
   [255, 255, 255, 255, 255, 255, 255], [255, 255, 255, 255, 255, 255, 255],
   [255, 255, 255, 255, 255, 255, 255]]

/-- A concrete orientation-vote environment. -/
def c6Vote : ℚ × ℚ → Nat → ℚ := fun _ _ => 0

/-- A concrete block-norm environment. -/
def c6Norm : List ℚ → ℚ := fun _ => 1

/-- A concrete orientation-vote environment. -/
def c7Vote : ℚ × ℚ → Nat → ℚ := fun _ _ => 0

/-- A concrete block-norm environment. -/
def c7Norm : List ℚ → ℚ := fun _ => 1

/-- A decision function that predicts class 0 everywhere. -/
def c7Pred : FeatureVec → ℚ := fun _ => 0

/-- A file system on which no path exists. -/
def c8Fs : FileSys := ⟨fun _ => false⟩

/-- A concrete deserialisation environment. -/
def c8Load : String → SvmHandle := fun _ => ⟨1⟩

/-- The classifier model path the application loads. -/
def c8File : String := "mnistSvm.xml"

/-- A write environment that leaves the file system unchanged. -/
def c10Write : FileSys → String → SvmHandle → FileSys := fun fs _ _ => fs

/-- A trained-state environment on which no handle is trained: the
state of the model right after `Svm::Svm()` constructs it. -/
def c10Untrained : SvmHandle → Bool := fun _ => false

/-- A trained-state environment on which every handle is trained. -/
def c10Trained : SvmHandle → Bool := fun _ => true

/-- A destination environment on which every path can be created. -/
def c10CanCreate : FileSys → String → Bool := fun _ _ => true

/-- A file system on which every path exists. -/
def c10Fs : FileSys := ⟨fun _ => true⟩

/-- The detector model path the trainer saves to. -/
def c10File : String := "svmDigitDetector.xml"

/-- The empty destination filename `Svm::Save` validates against. -/
def emptyFilename : String := ""

/-! ## Helper lemmas -/

/-- The crop of a rectangle that fits vertically has exactly `r.h`
rows. -/
theorem cropImage_length (frame : Image) (r : CvRect)
    (hy : r.y + r.h ≤ frame.length) :
    (cropImage frame r).length = r.h := by
  simp [cropImage]
  omega

/-- Every row of the crop of a rectangle that fits horizontally has
exactly `r.w` pixels. -/
theorem cropImage_row_length (frame : Image) (r : CvRect)
    (hx : ∀ row ∈ frame, r.x + r.w ≤ row.length) :
    ∀ row ∈ cropImage frame r, row.length = r.w := by
  intro row hrow
  simp only [cropImage, List.mem_map] at hrow
  obtain ⟨row0, h0, rfl⟩ := hrow
  have hmem : row0 ∈ frame := List.mem_of_mem_drop (List.mem_of_mem_take h0)
  have := hx row0 hmem
  simp
  omega

/-- Shape of `padImage` on a non-empty rectangular buffer: the height
grows by `2·vpad`, every row's width grows by `2·hpad`, and the added
border rows and columns hold the constant value. -/
theorem padImage_spec (img : Image) (vp hp w : Nat)
    (hne : img ≠ [])
    (hw : ∀ row ∈ img, row.length = w) :
    (padImage img vp hp 0).length = img.length + 2 * vp ∧
      (∀ row ∈ padImage img vp hp 0,
        row.length = w + 2 * hp ∧
        row.take hp = List.replicate hp 0 ∧
        row.drop (hp + w) = List.replicate hp 0) ∧
      (padImage img vp hp 0).take vp =
        List.replicate vp (List.replicate (w + 2 * hp) 0) ∧
      (padImage img vp hp 0).drop (vp + img.length) =
        List.replicate vp (List.replicate (w + 2 * hp) 0) := by
  have hhead : (img.headD []).length = w := by
    cases img with
    | nil => exact absurd rfl hne
    | cons a as => exact hw a (List.mem_cons_self a as)
  refine ⟨?_, ?_, ?_, ?_⟩
  · simp [padImage]; omega
  · intro row hrow
    simp only [padImage, hhead, List.mem_append, List.mem_replicate,
      List.mem_map] at hrow
    rcases hrow with (⟨_, rfl⟩ | ⟨row0, h0, rfl⟩) | ⟨_, rfl⟩
    · refine ⟨by simp, ?_, ?_⟩
      · rw [List.take_replicate]; congr 1; omega
      · rw [List.drop_replicate]; congr 1; omega
    · have hr0 := hw row0 h0
      refine ⟨by simp [hr0]; omega, ?_, ?_⟩
      · simp [List.take_append_eq_append_take, List.take_replicate, hr0]
      · simp [List.drop_append_eq_append_drop, List.drop_replicate, hr0]
    · refine ⟨by simp, ?_, ?_⟩
      · rw [List.take_replicate]; congr 1; omega
      · rw [List.drop_replicate]; congr 1; omega
  · rw [padImage]
    simp only [hhead]
    simp [List.take_append_eq_append_take, List.take_replicate]
  · rw [padImage]
    simp only [hhead]
    simp [List.drop_append_eq_append_drop, List.drop_replicate]

/-- The `Svm::Test` loop computes exactly the zip-based mismatch count
whenever there are at least as many labels as feature rows. -/
theorem testErrors_eq_mismatchCount (pred : FeatureVec → ℚ)
    (features : List FeatureVec) :
    ∀ labels : List Int, features.length ≤ labels.length →
      testErrors pred features labels = mismatchCount pred features labels := by
  induction features with
  | nil => intro labels _; simp [testErrors, mismatchCount]
  | cons f fs ih =>
    intro labels hlen
    cases labels with
    | nil => simp at hlen
    | cons l ls =>
      have hrec := ih ls (by simpa using hlen)
      by_cases hc : cppTruncToInt (pred f) ≠ l
      · simp [testErrors, mismatchCount, List.filter_cons, hc, hrec]
        omega
      · simp [testErrors, mismatchCount, List.filter_cons, hc, hrec]

/-- Length of a flattened map whose pieces all have the same length. -/
theorem length_flatten_map_const {α β : Type} (f : α → List β) (l : List α)
    (k : Nat) (hf : ∀ a ∈ l, (f a).length = k) :
    ((l.map f).flatten).length = l.length * k := by
  induction l with
  | nil => simp
  | cons a as ih =>
    simp only [List.map_cons, List.flatten_cons, List.length_append,
      List.length_cons]
    rw [hf a (List.mem_cons_self a as),
      ih fun x hx => hf x (List.mem_cons_of_mem a hx)]
    ring

/-! ## Claim theorems -/

/-- C1: if the detector predicts a non-positive value on every candidate
region of a frame, `ProcessFrame` emits no detection, the digit
classifier is never invoked, and the (empty) result is the same for
every digit classifier. -/
theorem processFrame_gating (det cls : Image → ℚ) (frame : Image)
    (rects : List CvRect)
    (hneg : ∀ r ∈ rects, det (extractRegionImage frame r) ≤ 0) :
    processFrameDetections det cls frame rects = [] ∧
      classifierCallCount det frame rects = 0 ∧
      ∀ cls' : Image → ℚ,
        processFrameDetections det cls frame rects =
          processFrameDetections det cls' frame rects := by
  induction rects with
  | nil => exact ⟨rfl, rfl, fun _ => rfl⟩
  | cons r rs ih =>
    have hr : ¬ 0 < det (extractRegionImage frame r) :=
      not_lt.mpr (hneg r (List.mem_cons_self r rs))
    obtain ⟨h1, h2, h3⟩ := ih fun x hx => hneg x (List.mem_cons_of_mem _ hx)
    refine ⟨?_, ?_, fun cls' => ?_⟩
    · simpa [processFrameDetections, List.filterMap_cons, hr] using h1
    · simpa [classifierCallCount, List.filter_cons, hr] using h2
    · simpa [processFrameDetections, List.filterMap_cons, hr] using h3 cls'

/-- C1 witness: an always-negative detector on a concrete frame with one
candidate region yields no detections and zero classifier calls. -/
theorem processFrame_gating_witness :
    processFrameDetections c1Det c1Cls c1Frame c1Rects = [] ∧
      classifierCallCount c1Det c1Frame c1Rects = 0 ∧
      ∀ cls' : Image → ℚ,
        processFrameDetections c1Det c1Cls c1Frame c1Rects =
          processFrameDetections c1Det cls' c1Frame c1Rects :=
  processFrame_gating c1Det c1Cls c1Frame c1Rects
    (by intro r _; norm_num [c1Det])

/-- C2 counterexample: a pixel with intensity exactly 90 is binarized
to background 0, not foreground 255, because `THRESH_BINARY` uses a
strict comparison: loading a 1×1 image file whose pixel is 90 yields
the sample `[[0]]`. -/
theorem binarize_boundary_cex :
    ReadMnistImageFile (fun _ => 0) (some (c2File 90)) = some [[[0]]] ∧
      (0 : Nat) ≠ 255 := by decide

/-- C2 amended: binarization during dataset loading is a strict
threshold at 90 — a pixel `p` becomes foreground 255 iff `p > 90`, so
91 is foreground while 90 and 89 are background. -/
theorem binarize_strict_threshold (p : Nat) :
    ReadMnistImageFile (fun _ => 0) (some (c2File p)) =
        some [[[if 90 < p then 255 else 0]]] ∧
      ReadMnistImageFile (fun _ => 0) (some (c2File 91)) = some [[[255]]] ∧
      ReadMnistImageFile (fun _ => 0) (some (c2File 90)) = some [[[0]]] ∧
      ReadMnistImageFile (fun _ => 0) (some (c2File 89)) = some [[[0]]] :=
  ⟨rfl, by decide, by decide, by decide⟩

/-- C3: the concrete image file with header (magic, N=3, R=2, C=2) and
pixel bytes [100,10,10,100, 95,95,0,0, 5,5,5,5] decodes to exactly the
three binarized 2×2 samples [[255,0],[0,255]], [[255,255],[0,0]],
[[0,0],[0,0]], in that order. -/
theorem mnist_concrete_decode :
    ReadMnistImageFile (fun _ => 0) (some mnistExampleFile) =
      some [[[255, 0], [0, 255]], [[255, 255], [0, 0]], [[0, 0], [0, 0]]] := by
  decide

/-- C4 counterexample: for a detected region of width and height 3, the
padded buffer has height 3, not the 3 + 2·round(0.2·3) = 5 the claim
requires (the code truncates `0.2·d` instead of rounding it). -/
theorem padding_rounds_cex :
    (extractRegionImage c4Frame ⟨0, 0, 3, 3⟩).length = 3 ∧
      (3 : ℤ) + 2 * round ((1 / 5 : ℚ) * 3) ≠ 3 := by
  constructor
  · rfl
  · norm_num [round_eq]

/-- C4 amended: for every detected region with unpadded bounding box
`w×h` inside the frame, the padded cropped buffer has height
`h + 2·⌊0.2·h⌋` and width `w + 2·⌊0.2·w⌋` (truncation, not rounding),
and the added border rows and columns are filled with the background
value 0. -/
theorem extractRegion_padding (frame : Image) (r : CvRect)
    (hh : 0 < r.h)
    (hy : r.y + r.h ≤ frame.length)
    (hx : ∀ row ∈ frame, r.x + r.w ≤ row.length) :
    (extractRegionImage frame r).length = r.h + 2 * (r.h / 5) ∧
      (∀ row ∈ extractRegionImage frame r,
        row.length = r.w + 2 * (r.w / 5) ∧
        row.take (r.w / 5) = List.replicate (r.w / 5) 0 ∧
        row.drop (r.w / 5 + r.w) = List.replicate (r.w / 5) 0) ∧
      (extractRegionImage frame r).take (r.h / 5) =
        List.replicate (r.h / 5) (List.replicate (r.w + 2 * (r.w / 5)) 0) ∧
      (extractRegionImage frame r).drop (r.h / 5 + r.h) =
        List.replicate (r.h / 5) (List.replicate (r.w + 2 * (r.w / 5)) 0) := by
  have hlen := cropImage_length frame r hy
  have hrows := cropImage_row_length frame r hx
  have hne : cropImage frame r ≠ [] := by
    intro hc
    rw [hc] at hlen
    simp at hlen
    omega
  have hmain := padImage_spec (cropImage frame r) (r.h / 5) (r.w / 5) r.w hne hrows
  rw [hlen] at hmain
  rw [extractRegionImage, padAmount, padAmount]
  exact hmain

/-- C4 witness: the interior 5×5 rectangle of a 7×7 frame pads to a 7×7
buffer with a one-pixel background border. -/
theorem extractRegion_padding_witness :
    (extractRegionImage c4WitFrame ⟨1, 1, 5, 5⟩).length = 5 + 2 * (5 / 5) ∧
      (∀ row ∈ extractRegionImage c4WitFrame ⟨1, 1, 5, 5⟩,
        row.length = 5 + 2 * (5 / 5) ∧
        row.take (5 / 5) = List.replicate (5 / 5) 0 ∧
        row.drop (5 / 5 + 5) = List.replicate (5 / 5) 0) ∧
      (extractRegionImage c4WitFrame ⟨1, 1, 5, 5⟩).take (5 / 5) =
        List.replicate (5 / 5) (List.replicate (5 + 2 * (5 / 5)) 0) ∧
      (extractRegionImage c4WitFrame ⟨1, 1, 5, 5⟩).drop (5 / 5 + 5) =
        List.replicate (5 / 5) (List.replicate (5 + 2 * (5 / 5)) 0) :=
  extractRegion_padding c4WitFrame ⟨1, 1, 5, 5⟩ (by decide) (by decide)
    (by decide)

/-- C5 counterexample: an image file 18 bytes long whose header implies
20 bytes (one 2×2 image) is not rejected — loading reports success. -/
theorem truncated_file_accepted_cex :
    shortImageFile.length < 16 + 1 * 2 * 2 ∧
      (ReadMnistImageFile (fun _ => 0) (some shortImageFile)).isSome = true := by
  decide

/-- C5 amended: image and label loading succeed exactly when the file
can be opened; no comparison of the actual length against the
header-implied size is performed, for any file content and any
uninitialised-memory environment. -/
theorem load_success_iff_opened (uninit : Nat → Nat)
    (file : Option (List Nat)) :
    (ReadMnistImageFile uninit file).isSome = file.isSome ∧
      (LoadMnistLabelFile uninit file).isSome = file.isSome := by
  cases file <;> simp [ReadMnistImageFile, LoadMnistLabelFile]

/-- C6: training on an empty dataset, or on one whose label count
differs from its sample count, fails with a `TrainingError` rather than
reporting success (the validation is performed by the OpenCV training
call the wrapper delegates to; its exception propagates out of
`Train`). -/
theorem train_invalid_data_fails (vote : ℚ × ℚ → Nat → ℚ)
    (blockNorm : List ℚ → ℚ) (imgs : List Image) (labels : List Int)
    (h : imgs = [] ∨ labels.length ≠ imgs.length) :
    ∃ e : TrainingError, HogSvmTrain vote blockNorm imgs labels = .error e := by
  rcases h with h | h
  · subst h
    exact ⟨.emptyTrainData, rfl⟩
  · by_cases he : imgs = []
    · subst he
      exact ⟨.emptyTrainData, rfl⟩
    · have hlen : imgs.length ≠ 0 := by
        simpa [List.length_eq_zero] using he
      refine ⟨.labelCountMismatch, ?_⟩
      simp [HogSvmTrain, SvmTrain, cvSvmTrainValidate, ExtractFeaturesAll,
        hlen, h, Except.map]

/-- C6 witness: training on the empty dataset fails. -/
theorem train_invalid_data_fails_witness :
    ∃ e : TrainingError, HogSvmTrain c6Vote c6Norm [] [] = .error e :=
  train_invalid_data_fails c6Vote c6Norm [] [] (Or.inl rfl)

/-- C7 counterexample: on the empty dataset `Test` does not fail — it
runs to completion and returns the float value `100·0/0`, the
non-finite NaN (modelled `none`), to its caller. -/
theorem test_empty_returns_nan_cex :
    HogSvmTest c7Vote c7Norm c7Pred [] [] = none := rfl

/-- C7 amended: on every non-empty dataset with as many labels as
samples, `Test` returns exactly `100 · mismatches / total` as a finite
float; on the empty dataset it returns the non-finite NaN float
(`0/0`, modelled `none`) instead of failing. -/
theorem test_error_rate (vote : ℚ × ℚ → Nat → ℚ) (blockNorm : List ℚ → ℚ)
    (pred : FeatureVec → ℚ) (imgs : List Image) (labels : List Int)
    (hlen : labels.length = imgs.length) (hne : imgs ≠ []) :
    HogSvmTest vote blockNorm pred imgs labels =
        some (100 *
          (mismatchCount pred (ExtractFeaturesAll vote blockNorm imgs)
              labels : ℚ) /
          (imgs.length : ℚ)) ∧
      HogSvmTest vote blockNorm pred [] [] = none := by
  constructor
  · have hfl : (ExtractFeaturesAll vote blockNorm imgs).length =
        labels.length := by
      simp [ExtractFeaturesAll, hlen]
    have hmm := testErrors_eq_mismatchCount pred
      (ExtractFeaturesAll vote blockNorm imgs) labels (le_of_eq hfl)
    have hl0 : labels.length ≠ 0 := by
      rw [hlen]
      simpa [List.length_eq_zero] using hne
    simp [HogSvmTest, SvmTest, cvFloatDiv, hl0, hmm, hlen, hne]
  · rfl

/-- C7 witness: a one-sample dataset with a matching label count gets a
finite error rate, while the empty dataset gets NaN. -/
theorem test_error_rate_witness :
    HogSvmTest c7Vote c7Norm c7Pred [[[255]]] [0] =
        some (100 *
          (mismatchCount c7Pred (ExtractFeaturesAll c7Vote c7Norm [[[255]]])
              [0] : ℚ) /
          (([[[255]]] : List Image).length : ℚ)) ∧
      HogSvmTest c7Vote c7Norm c7Pred [] [] = none :=
  test_error_rate c7Vote c7Norm c7Pred [[[255]]] [0] rfl (by simp)

/-- C8: loading a model from a path that does not exist reports failure
(`false`) and leaves the previously held model handle unchanged. -/
theorem load_missing_file_fails (fs : FileSys)
    (loadModel : String → SvmHandle) (m : SvmHandle) (filename : String)
    (h : fs.hasFile filename = false) :
    SvmLoad fs loadModel m filename = (false, m) := by
  simp [SvmLoad, h]

/-- C8 witness: loading the classifier model file on a file system with
no files fails and preserves the current handle. -/
theorem load_missing_file_fails_witness :
    SvmLoad c8Fs c8Load ⟨0⟩ c8File = (false, ⟨0⟩) :=
  load_missing_file_fails c8Fs c8Load ⟨0⟩ c8File rfl

/-- C9: the HOG feature vector has length `getDescriptorSize` of the
fixed `HogSvm` configuration (= 1521) for every input image, every
orientation-binning environment and every block-norm environment — in
particular the length is the same for any two input images. -/
theorem hog_descriptor_length (vote : ℚ × ℚ → Nat → ℚ)
    (blockNorm : List ℚ → ℚ) (img : Image) :
    (ExtractFeatures vote blockNorm img).length =
        getDescriptorSize hogSvmConfig ∧
      ∀ img' : Image,
        (ExtractFeatures vote blockNorm img).length =
          (ExtractFeatures vote blockNorm img').length := by
  have key : ∀ im : Image,
      (ExtractFeatures vote blockNorm im).length = 1521 := by
    intro im
    have hinner : ∀ bx ∈ List.range (numBlocksX hogSvmConfig),
        (((List.range (numBlocksY hogSvmConfig)).map fun byy =>
          normalizeBlock blockNorm
            (blockHistogram hogSvmConfig vote (hogWindow hogSvmConfig im)
              bx byy)).flatten).length = 117 := by
      intro bx _
      rw [length_flatten_map_const _ _ 9 fun byy _ => by
        simp [normalizeBlock, blockHistogram, hogSvmConfig]]
      simp [numBlocksY, hogSvmConfig]
    rw [ExtractFeatures, hogCompute,
      length_flatten_map_const _ _ 117 hinner]
    simp [numBlocksX, hogSvmConfig]
  refine ⟨(key img).trans (by rfl), fun img' => by rw [key img, key img']⟩

/-- C10 counterexample: `Save` does not report success for every
non-empty filename in every Model state — on an untrained model (the
state `Svm::Svm()` constructs) the underlying `m_svm->save` throws, and
the exception propagates out of `Save` instead of the method returning
`true`. -/
theorem save_untrained_fails_cex :
    c10File ≠ "" ∧
      SvmSave c10Untrained c10CanCreate c10Write c10Fs ⟨0⟩ c10File =
        .error .invalidModelState := by
  have hne : ¬ (c10File = "") := by decide
  exact ⟨hne, by simp [SvmSave, hne, cvSvmSave, c10Untrained, Except.map]⟩

/-- C10 amended: saving with an empty destination filename reports
failure (`false`) and changes neither the file system nor the stored
model, for every Model state; saving with a non-empty filename reports
success exactly when the underlying OpenCV serialisation call
completes, and propagates that call's exception (raised for an
untrained model or an un-creatable destination) when it does not. -/
theorem save_filename_validation (isTrained : SvmHandle → Bool)
    (canCreate : FileSys → String → Bool)
    (writeModel : FileSys → String → SvmHandle → FileSys) (fs : FileSys)
    (m : SvmHandle) :
    SvmSave isTrained canCreate writeModel fs m emptyFilename =
        .ok (false, fs, m) ∧
      ∀ filename : String, filename ≠ "" →
        (∀ fs', cvSvmSave isTrained canCreate writeModel fs filename m =
            .ok fs' →
          SvmSave isTrained canCreate writeModel fs m filename =
            .ok (true, fs', m)) ∧
        (∀ e, cvSvmSave isTrained canCreate writeModel fs filename m =
            .error e →
          SvmSave isTrained canCreate writeModel fs m filename =
            .error e) := by
  refine ⟨by simp [SvmSave, emptyFilename], fun filename hf => ⟨?_, ?_⟩⟩
  · intro fs' hok
    simp [SvmSave, hf, hok, Except.map]
  · intro e herr
    simp [SvmSave, hf, herr, Except.map]

/-- C10 witness: the empty filename is rejected without effect, and on
a trained model with a creatable destination the detector model
filename is accepted with the write performed. -/
theorem save_filename_validation_witness :
    SvmSave c10Trained c10CanCreate c10Write c10Fs ⟨0⟩ emptyFilename =
        .ok (false, c10Fs, ⟨0⟩) ∧
      SvmSave c10Trained c10CanCreate c10Write c10Fs ⟨0⟩ c10File =
        .ok (true, c10Write c10Fs c10File ⟨0⟩, ⟨0⟩) :=
  ⟨(save_filename_validation c10Trained c10CanCreate c10Write c10Fs ⟨0⟩).1,
    ((save_filename_validation c10Trained c10CanCreate c10Write c10Fs
          ⟨0⟩).2 c10File (by decide)).1 (c10Write c10Fs c10File ⟨0⟩)
      (by simp [cvSvmSave, c10Trained, c10CanCreate])⟩

end RDC
